import Mathlib

/-!
Verification of the vendor-abstraction and design-tracking layer of a
t-shirt Discord bot.

The development is a shallow embedding of the four print-on-demand vendor
clients (`teemill_client.py`, `printify_client.py`, `printful_client.py`,
`prodigi_client.py`) and of the orchestrator (`orchestrator.py`).

Modelling conventions:
* Python dictionaries coming back from a vendor are modelled as structures
  whose fields are `Option`-valued exactly where the code reads them with
  `dict.get` (absent key = `none`); keys read with mandatory indexing
  (`data["k"]`) are non-optional fields of the success-response structure.
* Python floats that the code only ever produces by exact arithmetic are
  modelled as `ℚ`; `hash` is modelled as an arbitrary function
  `String → Int` passed explicitly.
* An HTTP call is modelled by passing the vendor response in as data
  (`Fetch`): either a response with a status code and a parsed body, or a
  raised transport/parsing exception.
* The unbounded `while True` pagination loops advance their cursor by at
  least one item per iteration, so a fuel of `store.length + 1` is always
  sufficient; the wrappers instantiate the fuel at that bound and the
  lemmas below show the result is independent of any sufficient fuel.
* A vendor listing backend that "consistently serves one underlying finite
  product sequence" (the premise used by the pagination claims) is modelled
  by the `*Serve` functions, which answer every page request with the
  corresponding slice of a fixed list, mirroring the wire formats the
  clients parse (and the shapes mocked by the repository's own tests).
-/

namespace TShirtBot

/-! ### Python string semantics -/

/-- Python substring test `needle in hay`. -/
def pyIn (needle hay : String) : Bool :=
  hay.data.tails.any (fun t => needle.data.isPrefixOf t)

/-- Truthiness of an optional string: `None` and `""` are falsy. -/
def pyTruthy : Option String → Bool
  | none => false
  | some s => s ≠ ""

/-- Python `a or b` for two optional strings (left operand wins when truthy). -/
def pyOrOpt (a b : Option String) : Option String :=
  if pyTruthy a then a else b

/-- Python `a or b` where the fallback `b` is a plain (always truthy) string. -/
def pyOr (a : Option String) (b : String) : String :=
  match a with
  | some s => if s = "" then b else s
  | none => b

/-- Rendering of a possibly-`None` string inside an f-string: `str(None) = "None"`. -/
def fstr : Option String → String
  | some s => s
  | none => "None"

/-- Python `s.split(sep)` for a one-character separator, on the character list
(keeps empty pieces, `split` of `[]` is `[[]]`, exactly as in Python). -/
def splitChar (sep : Char) : List Char → List (List Char)
  | [] => [[]]
  | c :: cs =>
    if c = sep then [] :: splitChar sep cs
    else
      match splitChar sep cs with
      | [] => [[c]]
      | t :: ts => (c :: t) :: ts

/-! ### Owner-tag extraction and design statistics

`get_design_stats` is textually identical in the four clients apart from
the field the vendor stores the external reference in; it is embedded once,
parameterised by that accessor (`refOf`).  The Python `set` of user ids is
modelled as a `Finset` (only its size is observed). -/

/-- The owner extraction step of `get_design_stats`: when the reference
contains the literal marker `discord_`, split it on `_` and, when at least
two pieces result, keep the second one (`parts[1]`). -/
def extractOwner (reference : String) : Option String :=
  if pyIn "discord_" reference then
    match splitChar '_' reference.data with
    | _ :: second :: _ => some (String.mk second)
    | _ => none
  else none

structure DesignStats (α : Type) where
  total_designs : Nat
  unique_users : Nat
  designs_per_user : ℚ
  latest_design : Option α
deriving DecidableEq

/-- The pure tail of every vendor client `get_design_stats`, applied to the
fully materialised design list. -/
def designStatsOf {α : Type} (refOf : α → String) (products : List α) : DesignStats α :=
  let user_ids : Finset String := (products.filterMap (fun p => extractOwner (refOf p))).toFinset
  { total_designs := products.length
    unique_users := user_ids.card
    designs_per_user :=
      if user_ids.card = 0 then 0 else (products.length : ℚ) / (user_ids.card : ℚ)
    latest_design := products.head? }

/-- The extraction step exactly as the specification words it: split any
reference containing the marker on `_` and take the second token, with no
explicit length guard. -/
def specExtractOwner (reference : String) : Option String :=
  if pyIn "discord_" reference then
    some (String.mk ((splitChar '_' reference.data).getD 1 []))
  else none

/-! ### HTTP calls -/

/-- Outcome of one HTTP round trip as the client code observes it: either a
response (status code plus parsed JSON body) or a raised exception anywhere
in the request/parse path. -/
inductive Fetch (α : Type) where
  | response (status : Nat) (body : α)
  | raised (msg : String)
deriving DecidableEq

/-- The external reference every client embeds in the vendor record:
`f"discord_{user_id}_{hash(product_name)}"`. -/
def discordRef (h : String → Int) (user_id product_name : String) : String :=
  "discord_" ++ user_id ++ "_" ++ toString (h product_name)

/-! ### Teemill client (`teemill_client.py`)

The vendor keys products by *order*; listing walks `/orders` with
`limit`/`offset` and the loop stops once `offset + limit >= total`. -/

/-- One raw order dictionary coming back from the Teemill listing endpoint.
The aggregation code only ever reads the key `reference`; `payload`
stands for the rest of the (otherwise opaque) vendor dictionary. -/
structure TeemillOrder where
  reference : Option String := none
  payload : Nat := 0
deriving DecidableEq

/-- Parsed JSON body of a successful `GET /orders`. -/
structure TeemillListBody where
  orders : List TeemillOrder := []
  total : Option Nat := none
deriving DecidableEq

/-- The `paging` dictionary built by `TeemillClient.list_products`
(`{}` on the error path = all fields absent). -/
structure TeemillPaging where
  total : Option Nat := none
  limit : Option Nat := none
  offset : Option Nat := none
deriving DecidableEq

structure TeemillListResult where
  products : List TeemillOrder
  paging : TeemillPaging
deriving DecidableEq

/-- `TeemillClient.list_products`: non-200 statuses and raised transport
errors both degrade to an empty page with empty paging. -/
def teemill_list_products (resp : Fetch TeemillListBody) (limit offset : Nat) :
    TeemillListResult :=
  match resp with
  | .raised _ => { products := [], paging := {} }
  | .response status body =>
    if status ≠ 200 then { products := [], paging := {} }
    else
      { products := body.orders
        paging :=
          { total := some (body.total.getD body.orders.length)
            limit := some limit
            offset := some offset } }

/-- A Teemill backend consistently serving the fixed order sequence `store`:
every page request is answered with the corresponding slice and the true
total, in the wire shape `teemill_list_products` parses. -/
def teemillServe (store : List TeemillOrder) (limit offset : Nat) :
    Fetch TeemillListBody :=
  .response 200 { orders := (store.drop offset).take limit, total := some store.length }

/-- The shared shape of the `while True` pagination loops in
`TeemillClient.search_products_by_user` (with `keep` the user filter) and
`TeemillClient.get_all_designs` (with `keep` constantly true): fetch a page,
stop on an empty page, otherwise accumulate the kept items and stop once
`offset + limit >= total`.  The cursor advances by `limit ≥ 1` per
iteration, so `store.length + 1` fuel always suffices. -/
def teemillSweep (store : List TeemillOrder) (keep : TeemillOrder → Bool) (limit : Nat) :
    Nat → Nat → List TeemillOrder
  | _, 0 => []
  | offset, fuel + 1 =>
    let result := teemill_list_products (teemillServe store limit offset) limit offset
    if result.products.isEmpty then []
    else
      result.products.filter keep ++
        (if result.paging.total.getD 0 ≤ offset + limit then []
         else teemillSweep store keep limit (offset + limit) fuel)

/-- The filter of `TeemillClient.search_products_by_user`:
`p.get("reference") and user_id in p.get("reference", "")`. -/
def teemillKeep (user_id : String) (p : TeemillOrder) : Bool :=
  pyTruthy p.reference && pyIn user_id (p.reference.getD "")

/-- `TeemillClient.search_products_by_user` against the consistent backend
(limit 20, offset 0, as in the source). -/
def teemill_search_products_by_user (store : List TeemillOrder) (user_id : String) :
    List TeemillOrder :=
  teemillSweep store (teemillKeep user_id) 20 0 (store.length + 1)

/-- `TeemillClient.get_all_designs` against the consistent backend. -/
def teemill_get_all_designs (store : List TeemillOrder) : List TeemillOrder :=
  teemillSweep store (fun _ => true) 20 0 (store.length + 1)

/-- The reference field as `TeemillClient.get_design_stats` reads it. -/
def teemillRefOf (p : TeemillOrder) : String := p.reference.getD ""

/-- The pure statistics step of `TeemillClient.get_design_stats`. -/
def teemill_get_design_stats_of (products : List TeemillOrder) : DesignStats TeemillOrder :=
  designStatsOf teemillRefOf products

/-- `TeemillClient.get_design_stats` end to end. -/
def teemill_get_design_stats (store : List TeemillOrder) : DesignStats TeemillOrder :=
  teemill_get_design_stats_of (teemill_get_all_designs store)

/-! ### Printful client (`printful_client.py`) — listing side

Offset/limit listing over `/store/products`; the loop continues while the
response paging carries a truthy `next` marker. -/

/-- One raw product dictionary from the Printful listing; the aggregation
code reads only `external_id`. -/
structure PrintfulItem where
  external_id : Option String := none
  payload : Nat := 0
deriving DecidableEq

/-- The `paging` dictionary of a Printful listing response; the client only
ever reads its `next` key. -/
structure PrintfulPaging where
  next : Option String := none
deriving DecidableEq

/-- Parsed JSON body of a successful Printful `GET /store/products`. -/
structure PrintfulListBody where
  result : Option (List PrintfulItem) := none
  paging : Option PrintfulPaging := none
deriving DecidableEq

structure PrintfulListResult where
  products : List PrintfulItem
  paging : PrintfulPaging
deriving DecidableEq

/-- `PrintfulClient.list_products`: graceful degradation to an empty page on
any non-200 status or raised error. -/
def printful_list_products (resp : Fetch PrintfulListBody) (_limit _offset : Nat) :
    PrintfulListResult :=
  match resp with
  | .raised _ => { products := [], paging := {} }
  | .response status body =>
    if status ≠ 200 then { products := [], paging := {} }
    else
      { products := body.result.getD []
        paging := body.paging.getD {} }

/-- A Printful backend consistently serving `store`: each request gets the
requested slice, and `paging.next` is populated exactly while further items
remain (the shape the repository's own tests mock). -/
def printfulServe (store : List PrintfulItem) (limit offset : Nat) :
    Fetch PrintfulListBody :=
  .response 200
    { result := some ((store.drop offset).take limit)
      paging := some
        { next := if offset + limit < store.length then some "next_url" else none } }

/-- Shared shape of the Printful pagination loops (`search_products_by_user`
and `get_all_designs`): stop on an empty page or when `paging.next` is
falsy, else advance `offset` by `limit`. -/
def printfulSweep (store : List PrintfulItem) (keep : PrintfulItem → Bool) (limit : Nat) :
    Nat → Nat → List PrintfulItem
  | _, 0 => []
  | offset, fuel + 1 =>
    let result := printful_list_products (printfulServe store limit offset) limit offset
    if result.products.isEmpty then []
    else
      result.products.filter keep ++
        (if pyTruthy result.paging.next then printfulSweep store keep limit (offset + limit) fuel
         else [])

/-- The filter of `PrintfulClient.search_products_by_user`:
`p.get("external_id") and user_id in p.get("external_id", "")`. -/
def printfulKeep (user_id : String) (p : PrintfulItem) : Bool :=
  pyTruthy p.external_id && pyIn user_id (p.external_id.getD "")

def printful_search_products_by_user (store : List PrintfulItem) (user_id : String) :
    List PrintfulItem :=
  printfulSweep store (printfulKeep user_id) 20 0 (store.length + 1)

def printful_get_all_designs (store : List PrintfulItem) : List PrintfulItem :=
  printfulSweep store (fun _ => true) 20 0 (store.length + 1)

/-- The reference field as `PrintfulClient.get_design_stats` reads it. -/
def printfulRefOf (p : PrintfulItem) : String := p.external_id.getD ""

def printful_get_design_stats_of (products : List PrintfulItem) : DesignStats PrintfulItem :=
  designStatsOf printfulRefOf products

def printful_get_design_stats (store : List PrintfulItem) : DesignStats PrintfulItem :=
  printful_get_design_stats_of (printful_get_all_designs store)

/-! ### Printify client (`printify_client.py`) — listing side

Page-number listing over `/shops/{id}/products.json`; the loop stops when a
page comes back shorter than the requested limit. -/

/-- The nested `external` dictionary of a Printify product. -/
structure PrintifyExternal where
  id : Option String := none
deriving DecidableEq

/-- One raw product dictionary from the Printify listing; the aggregation
code reads only `external.id`. -/
structure PrintifyItem where
  external : Option PrintifyExternal := none
  payload : Nat := 0
deriving DecidableEq

/-- Parsed JSON body of a successful Printify listing: the endpoint returns
either a bare list or a dictionary wrapping it under `data`. -/
inductive PrintifyListBody where
  | direct (items : List PrintifyItem)
  | wrapped (data : Option (List PrintifyItem))
deriving DecidableEq

/-- The `paging` dictionary built by `PrintifyClient.list_products`
(`{}` on the error path). -/
structure PrintifyPaging where
  current_page : Option Nat := none
  limit : Option Nat := none
  total : Option Nat := none
deriving DecidableEq

structure PrintifyListResult where
  products : List PrintifyItem
  paging : PrintifyPaging
deriving DecidableEq

/-- `PrintifyClient.list_products`: empty page with empty paging on any
non-200 status or raised error; otherwise unwraps the body
(`data if isinstance(data, list) else data.get("data", [])`). -/
def printify_list_products (resp : Fetch PrintifyListBody) (limit page : Nat) :
    PrintifyListResult :=
  match resp with
  | .raised _ => { products := [], paging := {} }
  | .response status body =>
    if status ≠ 200 then { products := [], paging := {} }
    else
      let products :=
        match body with
        | .direct items => items
        | .wrapped data => data.getD []
      { products := products
        paging :=
          { current_page := some page
            limit := some limit
            total := some products.length } }

/-- A Printify backend consistently serving `store`: page `page` (1-based)
is the corresponding slice, delivered as a bare list. -/
def printifyServe (store : List PrintifyItem) (limit page : Nat) :
    Fetch PrintifyListBody :=
  .response 200 (.direct ((store.drop ((page - 1) * limit)).take limit))

/-- Shared shape of the Printify pagination loops: fetch page `idx + 1`,
stop on an empty page, accumulate kept items, stop when the page is shorter
than `limit`, else move to the next page.  The page counter is carried as
`idx = page - 1` so that the cursor arithmetic stays in `Nat`. -/
def printifySweep (store : List PrintifyItem) (keep : PrintifyItem → Bool) (limit : Nat) :
    Nat → Nat → List PrintifyItem
  | _, 0 => []
  | idx, fuel + 1 =>
    let page := idx + 1
    let result := printify_list_products (printifyServe store limit page) limit page
    if result.products.isEmpty then []
    else
      result.products.filter keep ++
        (if result.products.length < limit then []
         else printifySweep store keep limit (idx + 1) fuel)

/-- The filter of `PrintifyClient.search_products_by_user`:
`p.get("external", {}).get("id") and user_id in p.get("external", {}).get("id", "")`. -/
def printifyKeep (user_id : String) (p : PrintifyItem) : Bool :=
  pyTruthy (p.external.getD {}).id && pyIn user_id ((p.external.getD {}).id.getD "")

def printify_search_products_by_user (store : List PrintifyItem) (user_id : String) :
    List PrintifyItem :=
  printifySweep store (printifyKeep user_id) 20 0 (store.length + 1)

def printify_get_all_designs (store : List PrintifyItem) : List PrintifyItem :=
  printifySweep store (fun _ => true) 20 0 (store.length + 1)

/-- The reference field as `PrintifyClient.get_design_stats` reads it:
`product.get("external", {}).get("id", "")`. -/
def printifyRefOf (p : PrintifyItem) : String := (p.external.getD {}).id.getD ""

def printify_get_design_stats_of (products : List PrintifyItem) : DesignStats PrintifyItem :=
  designStatsOf printifyRefOf products

def printify_get_design_stats (store : List PrintifyItem) : DesignStats PrintifyItem :=
  printify_get_design_stats_of (printify_get_all_designs store)

/-! ### Prodigi client (`prodigi_client.py`) — listing side

Offset/limit listing over `/Orders` (`top`/`skip` parameters); Prodigi
returns no total, so the loop stops when a page is shorter than `limit`. -/

/-- One raw order dictionary from the Prodigi listing; the aggregation code
reads only `merchantReference`. -/
structure ProdigiItem where
  merchantReference : Option String := none
  payload : Nat := 0
deriving DecidableEq

/-- Parsed JSON body of a successful Prodigi `GET /Orders`. -/
structure ProdigiListBody where
  orders : List ProdigiItem := []
deriving DecidableEq

/-- The `paging` dictionary built by `ProdigiClient.list_products`; its
`total` is only the length of the returned page (Prodigi reports no total). -/
structure ProdigiPaging where
  total : Option Nat := none
  limit : Option Nat := none
  offset : Option Nat := none
deriving DecidableEq

structure ProdigiListResult where
  products : List ProdigiItem
  paging : ProdigiPaging
deriving DecidableEq

/-- `ProdigiClient.list_products`: empty page with empty paging on any
non-200 status or raised error. -/
def prodigi_list_products (resp : Fetch ProdigiListBody) (limit offset : Nat) :
    ProdigiListResult :=
  match resp with
  | .raised _ => { products := [], paging := {} }
  | .response status body =>
    if status ≠ 200 then { products := [], paging := {} }
    else
      { products := body.orders
        paging :=
          { total := some body.orders.length
            limit := some limit
            offset := some offset } }

/-- A Prodigi backend consistently serving `store`. -/
def prodigiServe (store : List ProdigiItem) (limit offset : Nat) :
    Fetch ProdigiListBody :=
  .response 200 { orders := (store.drop offset).take limit }

/-- Shared shape of the Prodigi pagination loops: stop on an empty page or a
page shorter than `limit`, else advance `offset` by `limit`. -/
def prodigiSweep (store : List ProdigiItem) (keep : ProdigiItem → Bool) (limit : Nat) :
    Nat → Nat → List ProdigiItem
  | _, 0 => []
  | offset, fuel + 1 =>
    let result := prodigi_list_products (prodigiServe store limit offset) limit offset
    if result.products.isEmpty then []
    else
      result.products.filter keep ++
        (if result.products.length < limit then []
         else prodigiSweep store keep limit (offset + limit) fuel)

/-- The filter of `ProdigiClient.search_products_by_user`:
`p.get("merchantReference") and user_id in p.get("merchantReference", "")`. -/
def prodigiKeep (user_id : String) (p : ProdigiItem) : Bool :=
  pyTruthy p.merchantReference && pyIn user_id (p.merchantReference.getD "")

def prodigi_search_products_by_user (store : List ProdigiItem) (user_id : String) :
    List ProdigiItem :=
  prodigiSweep store (prodigiKeep user_id) 20 0 (store.length + 1)

def prodigi_get_all_designs (store : List ProdigiItem) : List ProdigiItem :=
  prodigiSweep store (fun _ => true) 20 0 (store.length + 1)

/-- The reference field as `ProdigiClient.get_design_stats` reads it. -/
def prodigiRefOf (p : ProdigiItem) : String := p.merchantReference.getD ""

def prodigi_get_design_stats_of (products : List ProdigiItem) : DesignStats ProdigiItem :=
  designStatsOf prodigiRefOf products

def prodigi_get_design_stats (store : List ProdigiItem) : DesignStats ProdigiItem :=
  prodigi_get_design_stats_of (prodigi_get_all_designs store)

/-! ### Teemill product creation -/

/-- The `TeemillProduct` pydantic model. -/
structure TeemillProduct where
  order_id : Option String := none
  product_id : Option String := none
  variant_id : Option String := none
  external_id : Option String := none
  name : String
  thumbnail_url : Option String := none
  retail_price : Option ℚ := none
  currency : String := "GBP"
  product_url : Option String := none
deriving DecidableEq

/-- Parsed JSON body of a successful `POST /files` upload. -/
structure TeemillUploadBody where
  url : Option String := none
  file_url : Option String := none
deriving DecidableEq

/-- One entry of `products` in a successful `POST /orders` response. -/
structure TeemillOrderItemBody where
  product_id : Option String := none
  id : Option String := none
  variant_id : Option String := none
  thumbnail_url : Option String := none
  price : Option ℚ := none
  currency : Option String := none
deriving DecidableEq

/-- Parsed JSON body of a successful `POST /orders`. -/
structure TeemillOrderBody where
  order_id : Option String := none
  id : Option String := none
  url : Option String := none
  products : List TeemillOrderItemBody := []
deriving DecidableEq

/-- `TeemillClient._upload_design_image` on a successful round trip: a
URL-shaped input is passed through; otherwise the uploaded file URL is
`data.get("url") or data.get("file_url")` (which may still be `None`). -/
def teemill_upload_design_image (uploadBody : TeemillUploadBody) (image_data : String) :
    Option String :=
  if image_data.startsWith "http" then some image_data
  else pyOrOpt uploadBody.url uploadBody.file_url

/-- `TeemillClient._create_order` on a successful round trip. -/
def teemill_create_order (orderBody : TeemillOrderBody) (product_name : String)
    (image_url : Option String) (external_id : String) : TeemillProduct :=
  let order_id := pyOrOpt orderBody.order_id orderBody.id
  let product :=
    match orderBody.products with
    | p :: _ => p
    | [] => {}
  let product_url := pyOr orderBody.url ("https://teemill.com/order/" ++ fstr order_id)
  { order_id := order_id
    product_id := pyOrOpt product.product_id product.id
    variant_id := product.variant_id
    external_id := some external_id
    name := product_name
    thumbnail_url := pyOrOpt product.thumbnail_url image_url
    retail_price := some (product.price.getD 25)
    currency := product.currency.getD "GBP"
    product_url := some product_url }

/-- `TeemillClient.create_product` when both vendor sub-calls succeed. -/
def teemill_create_product (uploadBody : TeemillUploadBody) (orderBody : TeemillOrderBody)
    (h : String → Int) (design_image_url product_name user_id : String) : TeemillProduct :=
  let image_url := teemill_upload_design_image uploadBody design_image_url
  teemill_create_order orderBody product_name image_url
    (discordRef h user_id product_name)

/-! ### Printify product creation

Printify needs a provider/blueprint/variant selection before creating; the
client auto-detects the first provider when none is given and fails with a
descriptive `ValueError` when the catalog offers none.  The order of vendor
calls is tracked so that the "fails before any upload or creation call"
claim can be stated. -/

/-- The `PrintifyProduct` pydantic model. -/
structure PrintifyProduct where
  product_id : Option String := none
  title : String
  description : Option String := none
  blueprint_id : Option Int := none
  print_provider_id : Option Int := none
  variant_id : Option Int := none
  external_id : Option String := none
  thumbnail_url : Option String := none
  retail_price : Option ℚ := none
  currency : String := "USD"
  product_url : Option String := none
  is_visible : Bool := false
deriving DecidableEq

/-- One print provider from the Printify catalog listing. -/
structure PrintifyProvider where
  id : Int
  title : Option String := none
deriving DecidableEq

/-- One variant from the blueprint/provider variants listing. -/
structure PrintifyVariant where
  id : Int
deriving DecidableEq

/-- The blueprint details (`variants.json`) response. -/
structure PrintifyBlueprint where
  variants : List PrintifyVariant := []
deriving DecidableEq

/-- One variant of a successful product-creation response. -/
structure PrintifyRespVariant where
  id : Option Int := none
deriving DecidableEq

/-- One image of a successful product-creation response. -/
structure PrintifyImage where
  src : Option String := none
deriving DecidableEq

/-- Parsed JSON body of a successful `POST /shops/{id}/products.json`. -/
structure PrintifyCreateBody where
  id : Option String := none
  variants : List PrintifyRespVariant := []
  images : List PrintifyImage := []
  visible : Option Bool := none
deriving DecidableEq

/-- The successful vendor responses `PrintifyClient.create_product` can
consume, one per sub-call. -/
structure PrintifyEnv where
  providers : List PrintifyProvider := []
  uploadId : Option String := none
  blueprint : PrintifyBlueprint := {}
  createBody : PrintifyCreateBody := {}
deriving DecidableEq

/-- The vendor calls `PrintifyClient.create_product` can make, in order. -/
inductive PrintifyCall where
  | providersCall
  | uploadCall
  | blueprintCall
  | createCall
deriving DecidableEq

/-- `PrintifyClient._create_product` (the POST step): fails with a
`ValueError` when the blueprint offers no variants, otherwise selects the
first three variants and maps the response. -/
def printify_create_product_post (env : PrintifyEnv) (product_name description : String)
    (blueprint_id print_provider_id : Int) (external_id : String) :
    Except String PrintifyProduct :=
  if env.blueprint.variants.isEmpty then
    .error "No variants available for this blueprint"
  else
    let first_variant :=
      match env.createBody.variants with
      | v :: _ => v
      | [] => {}
    let thumbnail_url :=
      match env.createBody.images with
      | i :: _ => i.src
      | [] => none
    .ok
      { product_id := env.createBody.id
        title := product_name
        description := some description
        blueprint_id := some blueprint_id
        print_provider_id := some print_provider_id
        variant_id := first_variant.id
        external_id := some external_id
        thumbnail_url := thumbnail_url
        retail_price := some 25
        currency := "USD"
        product_url := some ("https://printify.com/app/products/" ++ fstr env.createBody.id)
        is_visible := env.createBody.visible.getD false }

/-- The tail of `PrintifyClient.create_product` after the provider has been
resolved: upload the image, fetch the blueprint variants, create. -/
def printify_create_with_provider (env : PrintifyEnv) (h : String → Int)
    (product_name user_id : String) (blueprint_id print_provider_id : Int)
    (calls : List PrintifyCall) : Except String PrintifyProduct × List PrintifyCall :=
  let calls := calls ++ [.uploadCall]
  let calls := calls ++ [.blueprintCall]
  let outcome := printify_create_product_post env product_name
    ("Custom design created by user " ++ user_id) blueprint_id print_provider_id
    (discordRef h user_id product_name)
  match outcome with
  | .error e => (.error e, calls)
  | .ok p => (.ok p, calls ++ [.createCall])

/-- `PrintifyClient.create_product` with successful vendor responses: when
no provider is passed, the catalog is consulted and the first available
provider chosen, failing with a descriptive error when there is none. -/
def printify_create_product (env : PrintifyEnv) (h : String → Int)
    (design_image_url product_name user_id : String) (blueprint_id : Int)
    (print_provider_id : Option Int) : Except String PrintifyProduct × List PrintifyCall :=
  match print_provider_id with
  | some pid =>
    printify_create_with_provider env h product_name user_id blueprint_id pid []
  | none =>
    match env.providers with
    | [] =>
      (.error ("No print providers available for blueprint " ++ toString blueprint_id),
        [.providersCall])
    | provider :: _ =>
      printify_create_with_provider env h product_name user_id blueprint_id provider.id
        [.providersCall]

/-! ### Printful product creation -/

/-- The `PrintfulProduct` pydantic model.  Note: it declares no public-URL
field of any kind. -/
structure PrintfulProduct where
  product_id : Int
  variant_id : Int
  sync_product_id : Option Int := none
  external_id : Option String := none
  name : String
  thumbnail_url : Option String := none
  retail_price : Option ℚ := none
  currency : String := "USD"
deriving DecidableEq

/-- The public URL carried by a returned `PrintfulProduct`: the model
declares no URL field, so it is absent for every product. -/
def printfulPublicUrl (_p : PrintfulProduct) : Option String := none

/-- The store URL `PrintfulClient._create_sync_product` synthesizes from the
sync-product id (and then never attaches to the returned product). -/
def printfulStoreUrl (sync_product_id : Int) : String :=
  "https://www.printful.com/dashboard/store/products/" ++ toString sync_product_id

/-- The `sync_product` part of a successful Printful creation response
(`result["sync_product"]` is indexed unconditionally, so its `id` is a
required field of the success shape). -/
structure PrintfulSyncProduct where
  id : Int
  thumbnail_url : Option String := none
deriving DecidableEq

/-- One entry of `result["sync_variants"]`.  `retail_price` is a decimal
string on the wire, parsed with `float(...)`; it is modelled as the parsed
number. -/
structure PrintfulSyncVariant where
  retail_price : Option ℚ := none
  currency : Option String := none
deriving DecidableEq

/-- Parsed `result` of a successful `POST /store/products`. -/
structure PrintfulCreateBody where
  sync_product : PrintfulSyncProduct
  sync_variants : List PrintfulSyncVariant := []
deriving DecidableEq

/-- `PrintfulClient._create_sync_product` on a successful round trip:
`result["sync_variants"][0]` raises an `IndexError` when the list is empty;
the synthesized `store_url` is computed and discarded. -/
def printful_create_sync_product (createBody : PrintfulCreateBody)
    (product_id variant_id file_id : Int) (product_name external_id : String) :
    Except String PrintfulProduct :=
  match createBody.sync_variants with
  | [] => .error "IndexError: list index out of range"
  | sync_variant :: _ =>
    let _store_url := printfulStoreUrl createBody.sync_product.id
    .ok
      { product_id := product_id
        variant_id := variant_id
        sync_product_id := some createBody.sync_product.id
        external_id := some external_id
        name := product_name
        thumbnail_url := createBody.sync_product.thumbnail_url
        retail_price := some (sync_variant.retail_price.getD 0)
        currency := sync_variant.currency.getD "USD" }

/-- `PrintfulClient.create_product` when the vendor sub-calls succeed: the
upload returns `data["result"]["id"]`, and the sync product is created for
the fixed template `71` / variant `4012`. -/
def printful_create_product (upload_file_id : Int) (createBody : PrintfulCreateBody)
    (h : String → Int) (design_image_url product_name user_id : String) :
    Except String PrintfulProduct :=
  let product_id : Int := 71
  let variant_id : Int := 4012
  printful_create_sync_product createBody product_id variant_id upload_file_id
    product_name (discordRef h user_id product_name)

/-! ### Prodigi product creation -/

/-- The `ProdigiProduct` pydantic model. -/
structure ProdigiProduct where
  order_id : Option String := none
  product_id : Option String := none
  sku : Option String := none
  external_id : Option String := none
  name : String
  thumbnail_url : Option String := none
  retail_price : Option ℚ := none
  currency : String := "USD"
  product_url : Option String := none
  status : Option String := none
deriving DecidableEq

/-- The `cost` dictionary of one item in a Prodigi order response. -/
structure ProdigiCost where
  amount : Option ℚ := none
  currency : Option String := none
deriving DecidableEq

/-- One entry of `order["items"]` in a Prodigi order response. -/
structure ProdigiRespItem where
  id : Option String := none
  sku : Option String := none
  cost : Option ProdigiCost := none
deriving DecidableEq

/-- The `status` dictionary of a Prodigi order. -/
structure ProdigiStatus where
  stage : Option String := none
deriving DecidableEq

/-- The `order` dictionary of a successful `POST /Orders` response. -/
structure ProdigiOrderInfo where
  id : Option String := none
  items : List ProdigiRespItem := []
  status : Option ProdigiStatus := none
deriving DecidableEq

/-- Parsed JSON body of a successful Prodigi `POST /Orders`. -/
structure ProdigiOrderBody where
  order : Option ProdigiOrderInfo := none
  id : Option String := none
deriving DecidableEq

/-- `ProdigiClient._upload_design_image`: returns URL-shaped input as-is and
also returns raw base64 data as-is (handled later in order creation). -/
def prodigi_upload_design_image (image_data : String) : String :=
  if image_data.startsWith "http" then image_data else image_data

/-- `ProdigiClient._create_order` on a successful round trip. -/
def prodigi_create_order (orderBody : ProdigiOrderBody) (product_name : String)
    (external_id : String) : ProdigiProduct :=
  let order_id := pyOrOpt (orderBody.order.getD {}).id orderBody.id
  let item :=
    match (orderBody.order.getD {}).items with
    | i :: _ => i
    | [] => {}
  let product_url := "https://dashboard.prodigi.com/orders/" ++ fstr order_id
  { order_id := order_id
    product_id := item.id
    sku := item.sku
    external_id := some external_id
    name := product_name
    thumbnail_url := none
    retail_price := some ((item.cost.getD {}).amount.getD 15)
    currency := (item.cost.getD {}).currency.getD "USD"
    product_url := some product_url
    status := ((orderBody.order.getD {}).status.getD {}).stage }

/-- `ProdigiClient.create_product` when the order call succeeds. -/
def prodigi_create_product (orderBody : ProdigiOrderBody) (h : String → Int)
    (design_image_url product_name user_id : String) : ProdigiProduct :=
  let _image_url := prodigi_upload_design_image design_image_url
  prodigi_create_order orderBody product_name (discordRef h user_id product_name)

/-! ### Orchestrator (`orchestrator.py`)

`process_tshirt_request` wraps the whole workflow in one `try/except`: a
parse failure yields its own result, any raised step is turned into a
uniform failure result carrying `str(e)`, and nothing escapes.  The
outcomes of the three collaborator steps are supplied as data. -/

/-- The `TShirtRequest` pydantic model produced by the LLM parser. -/
structure TShirtRequest where
  phrase : String
  style : String
  wants_image : Bool
  image_description : Option String := none
  color_preference : Option String := none
deriving DecidableEq

/-- The `TShirtResult` pydantic model. -/
structure TShirtResult where
  success : Bool
  product_url : Option String := none
  response_phrase : String
  error_message : Option String := none
  phrase : Option String := none
deriving DecidableEq

/-- The outcomes of the workflow steps of one `process_tshirt_request`
invocation: the parse result (`None` when unusable), the design-generation
outcome (`(file_path, image_bytes)` or a raised error), the Teemill
product-creation outcome, and the phrase `random.choice` picks. -/
structure WorkflowEnv where
  parseResult : Option TShirtRequest
  designResult : Except String (String × String)
  createResult : Except String TeemillProduct
  chosenPhrase : String

/-- `TShirtOrchestrator.process_tshirt_request`. -/
def process_tshirt_request (env : WorkflowEnv) (_message _user_id _username : String) :
    TShirtResult :=
  match env.parseResult with
  | none =>
    { success := false
      response_phrase := "Hmm, couldn\x27t quite catch that..."
      error_message := some "Failed to parse message" }
  | some request =>
    match env.designResult with
    | .error e =>
      { success := false
        response_phrase := "Oof, something broke on our end!"
        error_message := some e }
    | .ok _design =>
      let _product_name := String.mk (request.phrase.data.take 50) ++ " - Custom Tee"
      match env.createResult with
      | .error e =>
        { success := false
          response_phrase := "Oof, something broke on our end!"
          error_message := some e }
      | .ok product =>
        let product_url :=
          pyOr product.product_url ("https://teemill.com/order/" ++ fstr product.order_id)
        { success := true
          product_url := some product_url
          response_phrase := env.chosenPhrase
          phrase := some request.phrase }

/-! ### Concrete values used by the scenario claims -/

/-- The three-design listing of the statistics scenario (references
`discord_123_456`, `discord_789_012`, `discord_123_789`). -/
def statsDemoProducts : List TeemillOrder :=
  [ { reference := some "discord_123_456", payload := 0 }
  , { reference := some "discord_789_012", payload := 1 }
  , { reference := some "discord_123_789", payload := 2 } ]

/-- An order whose reference key is present but empty: it is listed by
`get_all_designs` but filtered out by `search_products_by_user` even though
the empty owner id is a substring of its reference. -/
def blankRefOrder : TeemillOrder := { reference := some "" }

/-- An order of user 123, used to instantiate universally quantified
search/listing statements at a concrete input. -/
def demoOrder123 : TeemillOrder := { reference := some "discord_123_456" }

/-- Helper: the size of the owner-id set described by the specification
wording (split each marker-bearing reference on `_`, take the second
token). -/
def specUniqueUsers {α : Type} (refOf : α → String) (products : List α) : Nat :=
  ((products.filterMap fun p => specExtractOwner (refOf p)).toFinset).card

/-! ### Lemmas and claim theorems -/

theorem pyIn_iff_substring (needle hay : String) :
    pyIn needle hay = true ↔ needle.data <:+: hay.data := by
  constructor
  · intro h
    rcases List.any_eq_true.mp h with ⟨t, ht, hpre⟩
    rw [List.mem_tails] at ht
    rw [ List.isPrefixOf_iff_prefix] at hpre
    exact ( List.infix_iff_prefix_suffix).mpr ⟨t, hpre, ht⟩
  · intro h
    rcases ( List.infix_iff_prefix_suffix).mp h with ⟨t, hpre, hsuf⟩
    exact List.any_eq_true.mpr
      ⟨t, (List.mem_tails t hay.data).mpr hsuf, ( List.isPrefixOf_iff_prefix).mpr hpre⟩

/-- The empty string is a Python-substring of every string. -/
theorem pyIn_empty (hay : String) : pyIn "" hay = true := by
  rw [pyIn_iff_substring]
  exact List.nil_infix

theorem splitChar_ne_nil (sep : Char) (l : List Char) : splitChar sep l ≠ [] := by
  induction l with
  | nil => simp [splitChar]
  | cons c cs ih =>
    unfold splitChar
    by_cases hc : c = sep
    · simp [hc]
    · simp only [hc, if_neg]
      cases h : splitChar sep cs with
      | nil => exact absurd h ih
      | cons t ts => simp

/-- Splitting a list that actually contains the separator yields at least two pieces. -/
theorem two_le_splitChar_length (sep : Char) (l : List Char) (h : sep ∈ l) :
    2 ≤ (splitChar sep l).length := by
  induction l with
  | nil => cases h
  | cons c cs ih =>
    unfold splitChar
    by_cases hc : c = sep
    · have h1 : splitChar sep cs ≠ [] := splitChar_ne_nil sep cs
      have h2 := List.length_pos.mpr h1
      subst hc
      rw [if_pos rfl]
      simp only [List.length_cons]
      omega
    · have hmem : sep ∈ cs := by
        rcases List.mem_cons.mp h with h | h
        · exact absurd h.symm hc
        · exact h
      have h2 := ih hmem
      simp only [hc, if_neg, ite_false]
      cases hs : splitChar sep cs with
      | nil => exact absurd hs (splitChar_ne_nil sep cs)
      | cons t ts =>
        rw [hs] at h2
        simpa using h2

/-- The marker `discord_` contains `_`, so the guard `len(parts) >= 2` in the
code is implied by the marker test: code and spec extraction agree. -/
theorem extractOwner_eq_spec : extractOwner = specExtractOwner := by
  funext reference
  unfold extractOwner specExtractOwner
  by_cases h : pyIn "discord_" reference = true
  · have hmem : '_' ∈ reference.data := by
      have hinf := (pyIn_iff_substring _ _).mp h
      exact hinf.subset (by decide)
    have hlen := two_le_splitChar_length '_' reference.data hmem
    simp only [h, if_pos]
    cases hs : splitChar '_' reference.data with
    | nil => exact absurd hs (splitChar_ne_nil _ _)
    | cons t ts =>
      cases ts with
      | nil => rw [hs] at hlen; simp at hlen
      | cons t1 ts1 => simp [List.getD]
  · simp [h]

/-- The supplied `user_id` is always recoverable from the reference as a
substring. -/
theorem pyIn_discordRef (h : String → Int) (user_id product_name : String) :
    pyIn user_id (discordRef h user_id product_name) = true := by
  rw [pyIn_iff_substring]
  unfold discordRef
  rw [String.data_append, String.data_append, String.data_append]
  exact ⟨"discord_".data, ("_".data ++ (toString (h product_name)).data), by simp⟩

/-- With any sufficient fuel and any positive page size, the Teemill sweep
starting at `offset` returns exactly the kept part of the remaining store. -/
theorem teemillSweep_eq (store : List TeemillOrder) (keep : TeemillOrder → Bool)
    (limit : Nat) (hl : 0 < limit) :
    ∀ fuel offset, store.length - offset < fuel →
      teemillSweep store keep limit offset fuel = (store.drop offset).filter keep := by
  intro fuel
  induction fuel with
  | zero => intro offset h; omega
  | succ n ih =>
    intro offset h
    rw [teemillSweep]
    simp only [teemill_list_products, teemillServe, ne_eq, not_true_eq_false,
      reduceIte, Option.getD_some]
    by_cases hp : ((store.drop offset).take limit).isEmpty
    · rw [if_pos hp]
      rw [List.isEmpty_iff] at hp
      rcases List.take_eq_nil_iff.mp hp with h0 | h0
      · omega
      · rw [List.drop_eq_nil_iff] at h0
        rw [List.drop_eq_nil_of_le h0]
        rfl
    · rw [if_neg hp]
      by_cases hstop : store.length ≤ offset + limit
      · rw [if_pos hstop, List.append_nil]
        have hlen : (store.drop offset).length ≤ limit := by
          rw [List.length_drop]; omega
        rw [List.take_of_length_le hlen]
      · rw [if_neg hstop]
        rw [ih (offset + limit) (by omega)]
        have hdd : store.drop (offset + limit) = (store.drop offset).drop limit := by
          rw [List.drop_drop]
        rw [hdd, ← List.filter_append, List.take_append_drop]

/-- `get_all_designs` recovers the whole store. -/
theorem teemill_get_all_designs_eq (store : List TeemillOrder) :
    teemill_get_all_designs store = store := by
  unfold teemill_get_all_designs
  rw [teemillSweep_eq store _ 20 (by norm_num) _ 0 (by omega)]
  simp

/-- `search_products_by_user` filters the whole store by the user filter. -/
theorem teemill_search_eq (store : List TeemillOrder) (user_id : String) :
    teemill_search_products_by_user store user_id = store.filter (teemillKeep user_id) := by
  unfold teemill_search_products_by_user
  rw [teemillSweep_eq store _ 20 (by norm_num) _ 0 (by omega)]
  rfl

theorem printfulSweep_eq (store : List PrintfulItem) (keep : PrintfulItem → Bool)
    (limit : Nat) (hl : 0 < limit) :
    ∀ fuel offset, store.length - offset < fuel →
      printfulSweep store keep limit offset fuel = (store.drop offset).filter keep := by
  intro fuel
  induction fuel with
  | zero => intro offset h; omega
  | succ n ih =>
    intro offset h
    rw [printfulSweep]
    simp only [printful_list_products, printfulServe, ne_eq, not_true_eq_false,
      reduceIte, Option.getD_some]
    by_cases hp : ((store.drop offset).take limit).isEmpty
    · rw [if_pos hp]
      rw [List.isEmpty_iff] at hp
      rcases List.take_eq_nil_iff.mp hp with h0 | h0
      · omega
      · rw [List.drop_eq_nil_iff] at h0
        rw [List.drop_eq_nil_of_le h0]
        rfl
    · rw [if_neg hp]
      by_cases hstop : offset + limit < store.length
      · rw [if_pos hstop]
        have hnext : pyTruthy (some "next_url") = true := by decide
        rw [hnext, if_pos rfl]
        rw [ih (offset + limit) (by omega)]
        have hdd : store.drop (offset + limit) = (store.drop offset).drop limit := by
          rw [List.drop_drop]
        rw [hdd, ← List.filter_append, List.take_append_drop]
      · rw [if_neg hstop]
        have hnext : pyTruthy (none : Option String) = false := by decide
        rw [hnext]
        simp only [Bool.false_eq_true, if_false, List.append_nil]
        have hlen : (store.drop offset).length ≤ limit := by
          rw [List.length_drop]; omega
        rw [List.take_of_length_le hlen]

theorem printful_get_all_designs_eq (store : List PrintfulItem) :
    printful_get_all_designs store = store := by
  unfold printful_get_all_designs
  rw [printfulSweep_eq store _ 20 (by norm_num) _ 0 (by omega)]
  simp

theorem printful_search_eq (store : List PrintfulItem) (user_id : String) :
    printful_search_products_by_user store user_id = store.filter (printfulKeep user_id) := by
  unfold printful_search_products_by_user
  rw [printfulSweep_eq store _ 20 (by norm_num) _ 0 (by omega)]
  rfl

theorem printifySweep_eq (store : List PrintifyItem) (keep : PrintifyItem → Bool)
    (limit : Nat) (hl : 0 < limit) :
    ∀ fuel idx, store.length - idx * limit < fuel →
      printifySweep store keep limit idx fuel = (store.drop (idx * limit)).filter keep := by
  intro fuel
  induction fuel with
  | zero => intro idx h; omega
  | succ n ih =>
    intro idx h
    rw [printifySweep]
    simp only [printify_list_products, printifyServe, ne_eq, not_true_eq_false,
      reduceIte, Nat.add_sub_cancel]
    by_cases hp : ((store.drop (idx * limit)).take limit).isEmpty
    · rw [if_pos hp]
      rw [List.isEmpty_iff] at hp
      rcases List.take_eq_nil_iff.mp hp with h0 | h0
      · omega
      · rw [List.drop_eq_nil_iff] at h0
        rw [List.drop_eq_nil_of_le h0]
        rfl
    · rw [if_neg hp]
      have hlen : ((store.drop (idx * limit)).take limit).length
          = min limit (store.length - idx * limit) := by
        rw [List.length_take, List.length_drop]
      by_cases hstop : ((store.drop (idx * limit)).take limit).length < limit
      · rw [if_pos hstop, List.append_nil]
        have hshort : (store.drop (idx * limit)).length ≤ limit := by
          rw [List.length_drop]; omega
        rw [List.take_of_length_le hshort]
      · rw [if_neg hstop]
        have hfull : limit ≤ store.length - idx * limit := by omega
        have hrec := ih (idx + 1) (by
          have : (idx + 1) * limit = idx * limit + limit := by ring
          omega)
        rw [hrec]
        have hdd : store.drop ((idx + 1) * limit) = (store.drop (idx * limit)).drop limit := by
          rw [List.drop_drop]
          congr 1
          ring
        rw [hdd, ← List.filter_append, List.take_append_drop]

theorem printify_get_all_designs_eq (store : List PrintifyItem) :
    printify_get_all_designs store = store := by
  unfold printify_get_all_designs
  rw [printifySweep_eq store _ 20 (by norm_num) _ 0 (by omega)]
  simp

theorem printify_search_eq (store : List PrintifyItem) (user_id : String) :
    printify_search_products_by_user store user_id = store.filter (printifyKeep user_id) := by
  unfold printify_search_products_by_user
  rw [printifySweep_eq store _ 20 (by norm_num) _ 0 (by omega)]
  rfl

theorem prodigiSweep_eq (store : List ProdigiItem) (keep : ProdigiItem → Bool)
    (limit : Nat) (hl : 0 < limit) :
    ∀ fuel offset, store.length - offset < fuel →
      prodigiSweep store keep limit offset fuel = (store.drop offset).filter keep := by
  intro fuel
  induction fuel with
  | zero => intro offset h; omega
  | succ n ih =>
    intro offset h
    rw [prodigiSweep]
    simp only [prodigi_list_products, prodigiServe, ne_eq, not_true_eq_false,
      reduceIte]
    by_cases hp : ((store.drop offset).take limit).isEmpty
    · rw [if_pos hp]
      rw [List.isEmpty_iff] at hp
      rcases List.take_eq_nil_iff.mp hp with h0 | h0
      · omega
      · rw [List.drop_eq_nil_iff] at h0
        rw [List.drop_eq_nil_of_le h0]
        rfl
    · rw [if_neg hp]
      have hlen : ((store.drop offset).take limit).length
          = min limit (store.length - offset) := by
        rw [List.length_take, List.length_drop]
      by_cases hstop : ((store.drop offset).take limit).length < limit
      · rw [if_pos hstop, List.append_nil]
        have hshort : (store.drop offset).length ≤ limit := by
          rw [List.length_drop]; omega
        rw [List.take_of_length_le hshort]
      · rw [if_neg hstop]
        rw [ih (offset + limit) (by omega)]
        have hdd : store.drop (offset + limit) = (store.drop offset).drop limit := by
          rw [List.drop_drop]
        rw [hdd, ← List.filter_append, List.take_append_drop]

theorem prodigi_get_all_designs_eq (store : List ProdigiItem) :
    prodigi_get_all_designs store = store := by
  unfold prodigi_get_all_designs
  rw [prodigiSweep_eq store _ 20 (by norm_num) _ 0 (by omega)]
  simp

theorem prodigi_search_eq (store : List ProdigiItem) (user_id : String) :
    prodigi_search_products_by_user store user_id = store.filter (prodigiKeep user_id) := by
  unfold prodigi_search_products_by_user
  rw [prodigiSweep_eq store _ 20 (by norm_num) _ 0 (by omega)]
  rfl

/-- Claim C1: for every vendor client, every owner id and every product
name, when every vendor sub-call succeeds `create_product` returns a
product whose external reference is exactly
`"discord_" ++ owner_id ++ "_" ++ hash(product_name)`, and in particular
that reference contains the owner id as a substring.  (For Printify,
success requires a non-empty provider listing and a non-empty variant
listing; for Printful it requires a non-empty `sync_variants` response —
expressed here by building those lists with an explicit head.) -/
theorem c1_create_product_external_reference
    (h : String → Int) (img name uid : String)
    (tUp : TeemillUploadBody) (tOrd : TeemillOrderBody)
    (pEnv : PrintifyEnv) (prov : PrintifyProvider) (provs : List PrintifyProvider)
    (v : PrintifyVariant) (vs : List PrintifyVariant) (bid : Int)
    (fid : Int) (sp : PrintfulSyncProduct) (sv : PrintfulSyncVariant)
    (svs : List PrintfulSyncVariant) (prOrd : ProdigiOrderBody) :
    (teemill_create_product tUp tOrd h img name uid).external_id
        = some (discordRef h uid name) ∧
    (∃ p, (printify_create_product
        { pEnv with providers := prov :: provs, blueprint := { variants := v :: vs } }
        h img name uid bid none).1 = .ok p ∧
      p.external_id = some (discordRef h uid name)) ∧
    (∃ p, printful_create_product fid { sync_product := sp, sync_variants := sv :: svs }
        h img name uid = .ok p ∧
      p.external_id = some (discordRef h uid name)) ∧
    (prodigi_create_product prOrd h img name uid).external_id
        = some (discordRef h uid name) ∧
    pyIn uid (discordRef h uid name) = true := by
  exact ⟨rfl, ⟨_, rfl, rfl⟩, ⟨_, rfl, rfl⟩, rfl, pyIn_discordRef h uid name⟩

/-- Claim C2: on the fetched list with references `discord_123_456`,
`discord_789_012`, `discord_123_789` the statistics are
`total_designs = 3`, `unique_users = 2`, `designs_per_user = 1.5`; and in
general the statistics of any materialised list have
`total_designs` = list length, `unique_users` = size of the owner-id set
obtained by splitting each marker-bearing reference on `_` and taking the
second token, `designs_per_user` = `total/unique` when the set is non-empty
and `0` otherwise, exactly as the specification words it. -/
theorem c2_design_stats :
    teemill_get_design_stats_of statsDemoProducts =
      { total_designs := 3
        unique_users := 2
        designs_per_user := (1.5 : ℚ)
        latest_design := some { reference := some "discord_123_456", payload := 0 } } ∧
    ∀ (α : Type) (refOf : α → String) (products : List α),
      designStatsOf refOf products =
        { total_designs := products.length
          unique_users := specUniqueUsers refOf products
          designs_per_user :=
            if specUniqueUsers refOf products = 0 then 0
            else (products.length : ℚ) / (specUniqueUsers refOf products : ℚ)
          latest_design := products.head? } := by
  constructor
  · have hc : (List.filterMap (fun p => extractOwner (teemillRefOf p))
        statsDemoProducts).toFinset.card = 2 := by decide
    simp only [teemill_get_design_stats_of, designStatsOf]
    rw [hc]
    norm_num [statsDemoProducts]
  · intro α refOf products
    unfold designStatsOf specUniqueUsers
    rw [extractOwner_eq_spec]

/-- Claim C3 (counterexample): with the empty owner id — a substring of
every string — an order whose reference is present but empty is listed by
`get_all_designs` and its reference contains the owner id, yet
`search_products_by_user` does not return it (its filter first requires a
truthy reference), so the completeness direction of the claim fails as
stated. -/
theorem c3_counterexample_empty_owner_id :
    blankRefOrder ∈ teemill_get_all_designs [blankRefOrder] ∧
    pyIn "" (teemillRefOf blankRefOrder) = true ∧
    blankRefOrder ∉ teemill_search_products_by_user [blankRefOrder] "" := by
  decide

/-- Claim C3 (amended): for every vendor client, every owner id and every
consistently served store, `search_products_by_user` returns a subsequence
of `get_all_designs`, every returned item has a reference containing the
owner id, and — amended — every listed item whose reference is *present and
non-empty* and contains the owner id is returned. -/
theorem c3_search_vs_all_designs (uid : String) :
    (∀ store : List TeemillOrder,
      List.Sublist (teemill_search_products_by_user store uid)
        (teemill_get_all_designs store) ∧
      (∀ p ∈ teemill_search_products_by_user store uid,
        pyIn uid (teemillRefOf p) = true) ∧
      (∀ p ∈ teemill_get_all_designs store, pyTruthy p.reference = true →
        pyIn uid (teemillRefOf p) = true →
        p ∈ teemill_search_products_by_user store uid)) ∧
    (∀ store : List PrintfulItem,
      List.Sublist (printful_search_products_by_user store uid)
        (printful_get_all_designs store) ∧
      (∀ p ∈ printful_search_products_by_user store uid,
        pyIn uid (printfulRefOf p) = true) ∧
      (∀ p ∈ printful_get_all_designs store, pyTruthy p.external_id = true →
        pyIn uid (printfulRefOf p) = true →
        p ∈ printful_search_products_by_user store uid)) ∧
    (∀ store : List PrintifyItem,
      List.Sublist (printify_search_products_by_user store uid)
        (printify_get_all_designs store) ∧
      (∀ p ∈ printify_search_products_by_user store uid,
        pyIn uid (printifyRefOf p) = true) ∧
      (∀ p ∈ printify_get_all_designs store, pyTruthy (p.external.getD {}).id = true →
        pyIn uid (printifyRefOf p) = true →
        p ∈ printify_search_products_by_user store uid)) ∧
    (∀ store : List ProdigiItem,
      List.Sublist (prodigi_search_products_by_user store uid)
        (prodigi_get_all_designs store) ∧
      (∀ p ∈ prodigi_search_products_by_user store uid,
        pyIn uid (prodigiRefOf p) = true) ∧
      (∀ p ∈ prodigi_get_all_designs store, pyTruthy p.merchantReference = true →
        pyIn uid (prodigiRefOf p) = true →
        p ∈ prodigi_search_products_by_user store uid)) := by
  refine ⟨fun store => ?_, fun store => ?_, fun store => ?_, fun store => ?_⟩
  · rw [teemill_search_eq, teemill_get_all_designs_eq]
    refine ⟨List.filter_sublist store, fun p hp => ?_, fun p hp h1 h2 => ?_⟩
    · have := (List.mem_filter.mp hp).2
      simp only [teemillKeep, Bool.and_eq_true] at this
      exact this.2
    · exact List.mem_filter.mpr ⟨hp, by simp [teemillKeep, h1]; exact h2⟩
  · rw [printful_search_eq, printful_get_all_designs_eq]
    refine ⟨List.filter_sublist store, fun p hp => ?_, fun p hp h1 h2 => ?_⟩
    · have := (List.mem_filter.mp hp).2
      simp only [printfulKeep, Bool.and_eq_true] at this
      exact this.2
    · exact List.mem_filter.mpr ⟨hp, by simp [printfulKeep, h1]; exact h2⟩
  · rw [printify_search_eq, printify_get_all_designs_eq]
    refine ⟨List.filter_sublist store, fun p hp => ?_, fun p hp h1 h2 => ?_⟩
    · have := (List.mem_filter.mp hp).2
      simp only [printifyKeep, Bool.and_eq_true] at this
      exact this.2
    · exact List.mem_filter.mpr ⟨hp, by simp [printifyKeep, h1]; exact h2⟩
  · rw [prodigi_search_eq, prodigi_get_all_designs_eq]
    refine ⟨List.filter_sublist store, fun p hp => ?_, fun p hp h1 h2 => ?_⟩
    · have := (List.mem_filter.mp hp).2
      simp only [prodigiKeep, Bool.and_eq_true] at this
      exact this.2
    · exact List.mem_filter.mpr ⟨hp, by simp [prodigiKeep, h1]; exact h2⟩

/-- Claim C3 witness: the amended completeness direction applied to a
concrete store and owner id. -/
theorem c3_search_vs_all_designs_witness :
    demoOrder123 ∈ teemill_search_products_by_user [demoOrder123] "123" :=
  ((c3_search_vs_all_designs "123").1 [demoOrder123]).2.2 demoOrder123
    (by decide) (by decide) (by decide)

/-- Claim C4: for every vendor client and every consistently served store,
the design statistics are the same whether the exhaustive sweep fetches 1
item per page or 100 items per page. -/
theorem c4_stats_page_size_invariant :
    (∀ store : List TeemillOrder,
      teemill_get_design_stats_of (teemillSweep store (fun _ => true) 1 0 (store.length + 1)) =
      teemill_get_design_stats_of (teemillSweep store (fun _ => true) 100 0 (store.length + 1))) ∧
    (∀ store : List PrintfulItem,
      printful_get_design_stats_of (printfulSweep store (fun _ => true) 1 0 (store.length + 1)) =
      printful_get_design_stats_of (printfulSweep store (fun _ => true) 100 0 (store.length + 1))) ∧
    (∀ store : List PrintifyItem,
      printify_get_design_stats_of (printifySweep store (fun _ => true) 1 0 (store.length + 1)) =
      printify_get_design_stats_of (printifySweep store (fun _ => true) 100 0 (store.length + 1))) ∧
    (∀ store : List ProdigiItem,
      prodigi_get_design_stats_of (prodigiSweep store (fun _ => true) 1 0 (store.length + 1)) =
      prodigi_get_design_stats_of (prodigiSweep store (fun _ => true) 100 0 (store.length + 1))) := by
  refine ⟨fun store => ?_, fun store => ?_, fun store => ?_, fun store => ?_⟩
  · rw [teemillSweep_eq store _ 1 (by norm_num) _ 0 (by omega),
      teemillSweep_eq store _ 100 (by norm_num) _ 0 (by omega)]
  · rw [printfulSweep_eq store _ 1 (by norm_num) _ 0 (by omega),
      printfulSweep_eq store _ 100 (by norm_num) _ 0 (by omega)]
  · rw [printifySweep_eq store _ 1 (by norm_num) _ 0 (by omega),
      printifySweep_eq store _ 100 (by norm_num) _ 0 (by omega)]
  · rw [prodigiSweep_eq store _ 1 (by norm_num) _ 0 (by omega),
      prodigiSweep_eq store _ 100 (by norm_num) _ 0 (by omega)]

/-- Claim C5: for every vendor client, `list_products` maps any non-200
response and any raised transport error to an empty product list with empty
paging information; the embedded operations are total, so no vendor listing
error ever propagates to the caller. -/
theorem c5_list_products_degrades (status : Nat) (hs : status ≠ 200) (msg : String)
    (limit offset page : Nat) (tb : TeemillListBody) (fb : PrintfulListBody)
    (ib : PrintifyListBody) (db : ProdigiListBody) :
    teemill_list_products (.response status tb) limit offset = ⟨[], {}⟩ ∧
    teemill_list_products (.raised msg) limit offset = ⟨[], {}⟩ ∧
    printful_list_products (.response status fb) limit offset = ⟨[], {}⟩ ∧
    printful_list_products (.raised msg) limit offset = ⟨[], {}⟩ ∧
    printify_list_products (.response status ib) limit page = ⟨[], {}⟩ ∧
    printify_list_products (.raised msg) limit page = ⟨[], {}⟩ ∧
    prodigi_list_products (.response status db) limit offset = ⟨[], {}⟩ ∧
    prodigi_list_products (.raised msg) limit offset = ⟨[], {}⟩ := by
  refine ⟨?_, rfl, ?_, rfl, ?_, rfl, ?_, rfl⟩ <;>
    simp [teemill_list_products, printful_list_products, printify_list_products,
      prodigi_list_products, hs]

/-- Claim C5 witness: the degradation at a concrete failing status. -/
theorem c5_list_products_degrades_witness :
    teemill_list_products (.response 500 {}) 20 0 = ⟨[], {}⟩ ∧
    teemill_list_products (.raised "boom") 20 0 = ⟨[], {}⟩ ∧
    printful_list_products (.response 500 {}) 20 0 = ⟨[], {}⟩ ∧
    printful_list_products (.raised "boom") 20 0 = ⟨[], {}⟩ ∧
    printify_list_products (.response 500 (.direct [])) 20 1 = ⟨[], {}⟩ ∧
    printify_list_products (.raised "boom") 20 1 = ⟨[], {}⟩ ∧
    prodigi_list_products (.response 500 {}) 20 0 = ⟨[], {}⟩ ∧
    prodigi_list_products (.raised "boom") 20 0 = ⟨[], {}⟩ :=
  c5_list_products_degrades 500 (by decide) "boom" 20 0 1 {} {} (.direct []) {}

/-- Claim C6: when Printify `create_product` is called without an explicit
print provider and the provider listing for the blueprint is empty, it
fails with the descriptive `ValueError` and makes neither an image-upload
call nor a product-creation call against the vendor. -/
theorem c6_no_providers_fails_early (env : PrintifyEnv) (h : String → Int)
    (img name uid : String) (bid : Int) :
    (printify_create_product { env with providers := [] } h img name uid bid none).1
        = .error ("No print providers available for blueprint " ++ toString bid) ∧
    PrintifyCall.uploadCall ∉
      (printify_create_product { env with providers := [] } h img name uid bid none).2 ∧
    PrintifyCall.createCall ∉
      (printify_create_product { env with providers := [] } h img name uid bid none).2 := by
  refine ⟨rfl, ?_, ?_⟩ <;> simp [printify_create_product]

/-- Claim C6 witness: the early failure at a concrete environment and
blueprint. -/
theorem c6_no_providers_fails_early_witness :
    (printify_create_product { providers := [] } (fun _ => 37) "http://img" "Tee" "123" 5
        none).1 = .error ("No print providers available for blueprint " ++ toString (5 : Int)) ∧
    PrintifyCall.uploadCall ∉
      (printify_create_product { providers := [] } (fun _ => 37) "http://img" "Tee" "123" 5
        none).2 ∧
    PrintifyCall.createCall ∉
      (printify_create_product { providers := [] } (fun _ => 37) "http://img" "Tee" "123" 5
        none).2 :=
  c6_no_providers_fails_early {} (fun _ => 37) "http://img" "Tee" "123" 5

/-- Claim C7: for every vendor client, a two-page sweep — page 1 serving
two items with the vendor's "more pages" signal and page 2 serving one item
without it — concatenates to the three items in original order, and the
statistics over that sweep report the first item of the first page as
`latest_design`.  The per-vendor signal is stated in the vendor's own
idiom: `offset+limit < total` for Teemill, a truthy `paging.next` for
Printful, and a full page (`len(products) == limit`) for Printify and
Prodigi. -/
theorem c7_two_page_sweep (a b c : TeemillOrder) (d e f : PrintfulItem)
    (g hh i : PrintifyItem) (j k l : ProdigiItem) :
    ((teemill_list_products (teemillServe [a, b, c] 2 0) 2 0).products = [a, b] ∧
      ¬ ((teemill_list_products (teemillServe [a, b, c] 2 0) 2 0).paging.total.getD 0 ≤ 0 + 2) ∧
      (teemill_list_products (teemillServe [a, b, c] 2 2) 2 2).products = [c] ∧
      ((teemill_list_products (teemillServe [a, b, c] 2 2) 2 2).paging.total.getD 0 ≤ 2 + 2) ∧
      teemillSweep [a, b, c] (fun _ => true) 2 0 4 = [a, b, c] ∧
      (teemill_get_design_stats_of
        (teemillSweep [a, b, c] (fun _ => true) 2 0 4)).latest_design = some a) ∧
    ((printful_list_products (printfulServe [d, e, f] 2 0) 2 0).products = [d, e] ∧
      pyTruthy (printful_list_products (printfulServe [d, e, f] 2 0) 2 0).paging.next = true ∧
      (printful_list_products (printfulServe [d, e, f] 2 2) 2 2).products = [f] ∧
      pyTruthy (printful_list_products (printfulServe [d, e, f] 2 2) 2 2).paging.next = false ∧
      printfulSweep [d, e, f] (fun _ => true) 2 0 4 = [d, e, f] ∧
      (printful_get_design_stats_of
        (printfulSweep [d, e, f] (fun _ => true) 2 0 4)).latest_design = some d) ∧
    ((printify_list_products (printifyServe [g, hh, i] 2 1) 2 1).products = [g, hh] ∧
      ¬ ((printify_list_products (printifyServe [g, hh, i] 2 1) 2 1).products.length < 2) ∧
      (printify_list_products (printifyServe [g, hh, i] 2 2) 2 2).products = [i] ∧
      ((printify_list_products (printifyServe [g, hh, i] 2 2) 2 2).products.length < 2) ∧
      printifySweep [g, hh, i] (fun _ => true) 2 0 4 = [g, hh, i] ∧
      (printify_get_design_stats_of
        (printifySweep [g, hh, i] (fun _ => true) 2 0 4)).latest_design = some g) ∧
    ((prodigi_list_products (prodigiServe [j, k, l] 2 0) 2 0).products = [j, k] ∧
      ¬ ((prodigi_list_products (prodigiServe [j, k, l] 2 0) 2 0).products.length < 2) ∧
      (prodigi_list_products (prodigiServe [j, k, l] 2 2) 2 2).products = [l] ∧
      ((prodigi_list_products (prodigiServe [j, k, l] 2 2) 2 2).products.length < 2) ∧
      prodigiSweep [j, k, l] (fun _ => true) 2 0 4 = [j, k, l] ∧
      (prodigi_get_design_stats_of
        (prodigiSweep [j, k, l] (fun _ => true) 2 0 4)).latest_design = some j) := by
  exact ⟨⟨rfl, of_decide_eq_true rfl, rfl, of_decide_eq_true rfl, rfl, rfl⟩,
    ⟨rfl, rfl, rfl, rfl, rfl, rfl⟩,
    ⟨rfl, of_decide_eq_true rfl, rfl, of_decide_eq_true rfl, rfl, rfl⟩,
    ⟨rfl, of_decide_eq_true rfl, rfl, of_decide_eq_true rfl, rfl, rfl⟩⟩

/-- Claim C7 witness: the two-page sweep applied to concrete items. -/
theorem c7_two_page_sweep_witness :
    teemillSweep [{ payload := 1 }, { payload := 2 }, { payload := 3 }]
      (fun _ => true) 2 0 4
      = [{ payload := 1 }, { payload := 2 }, { payload := 3 }] :=
  (c7_two_page_sweep { payload := 1 } { payload := 2 } { payload := 3 }
    {} {} {} {} {} {} {} {} {}).1.2.2.2.2.1

/-- Claim C8: when the vendor product-creation step raises with text
`"API Timeout"` (after a successful parse and a successful design
generation), `process_tshirt_request` returns a failure result whose error
field contains `"API Timeout"` and whose product URL is absent; the
embedded workflow is total, so no exception escapes. -/
theorem c8_api_timeout_failure (req : TShirtRequest) (design : String × String)
    (chosen msg uid uname : String) :
    (process_tshirt_request
      { parseResult := some req, designResult := .ok design,
        createResult := .error "API Timeout", chosenPhrase := chosen }
      msg uid uname).success = false ∧
    (process_tshirt_request
      { parseResult := some req, designResult := .ok design,
        createResult := .error "API Timeout", chosenPhrase := chosen }
      msg uid uname).error_message = some "API Timeout" ∧
    pyIn "API Timeout"
      ((process_tshirt_request
        { parseResult := some req, designResult := .ok design,
          createResult := .error "API Timeout", chosenPhrase := chosen }
        msg uid uname).error_message.getD "") = true ∧
    (process_tshirt_request
      { parseResult := some req, designResult := .ok design,
        createResult := .error "API Timeout", chosenPhrase := chosen }
      msg uid uname).product_url = none := by
  exact ⟨rfl, rfl, rfl, rfl⟩

/-- Claim C9: three of the four clients do attach a non-absent public URL
to every successfully created product (vendor-returned or synthesized from
the primary key), but the Printful client does not — its
`_create_sync_product` computes the dashboard store URL from the
sync-product id and then discards it, and the `PrintfulProduct` model
declares no URL field, so the returned product carries no public URL. -/
theorem c9_public_url_printful_missing (h : String → Int) (img name uid : String)
    (tUp : TeemillUploadBody) (tOrd : TeemillOrderBody)
    (pEnv : PrintifyEnv) (prov : PrintifyProvider) (provs : List PrintifyProvider)
    (v : PrintifyVariant) (vs : List PrintifyVariant) (bid : Int)
    (fid : Int) (sp : PrintfulSyncProduct) (sv : PrintfulSyncVariant)
    (svs : List PrintfulSyncVariant) (prOrd : ProdigiOrderBody) :
    (teemill_create_product tUp tOrd h img name uid).product_url
        = some (pyOr tOrd.url
            ("https://teemill.com/order/" ++ fstr (pyOrOpt tOrd.order_id tOrd.id))) ∧
    (∃ p, (printify_create_product
        { pEnv with providers := prov :: provs, blueprint := { variants := v :: vs } }
        h img name uid bid none).1 = .ok p ∧
      p.product_url = some ("https://printify.com/app/products/" ++ fstr pEnv.createBody.id)) ∧
    (prodigi_create_product prOrd h img name uid).product_url
        = some ("https://dashboard.prodigi.com/orders/"
            ++ fstr (pyOrOpt (prOrd.order.getD {}).id prOrd.id)) ∧
    (∃ p, printful_create_product fid { sync_product := sp, sync_variants := sv :: svs }
        h img name uid = .ok p ∧
      printfulPublicUrl p = none ∧
      printfulStoreUrl sp.id
        = "https://www.printful.com/dashboard/store/products/" ++ toString sp.id) := by
  exact ⟨rfl, ⟨_, rfl, rfl⟩, rfl, ⟨_, rfl, rfl, rfl⟩⟩

/-- Claim C10: for every vendor client, `search_products_by_user` never
returns an item whose reference field is missing, `None` or empty, for any
owner id; and with the empty owner id (a substring of everything) it
returns exactly the items with a present non-empty reference — not every
item. -/
theorem c10_search_requires_truthy_reference (store_t : List TeemillOrder)
    (store_f : List PrintfulItem) (store_i : List PrintifyItem)
    (store_d : List ProdigiItem) (uid : String) :
    (∀ p ∈ teemill_search_products_by_user store_t uid,
      p.reference ≠ none ∧ p.reference ≠ some "") ∧
    teemill_search_products_by_user store_t ""
      = store_t.filter (fun p => pyTruthy p.reference) ∧
    (∀ p ∈ printful_search_products_by_user store_f uid,
      p.external_id ≠ none ∧ p.external_id ≠ some "") ∧
    printful_search_products_by_user store_f ""
      = store_f.filter (fun p => pyTruthy p.external_id) ∧
    (∀ p ∈ printify_search_products_by_user store_i uid,
      (p.external.getD {}).id ≠ none ∧ (p.external.getD {}).id ≠ some "") ∧
    printify_search_products_by_user store_i ""
      = store_i.filter (fun p => pyTruthy (p.external.getD {}).id) ∧
    (∀ p ∈ prodigi_search_products_by_user store_d uid,
      p.merchantReference ≠ none ∧ p.merchantReference ≠ some "") ∧
    prodigi_search_products_by_user store_d ""
      = store_d.filter (fun p => pyTruthy p.merchantReference) := by
  have truthy_ne : ∀ o : Option String, pyTruthy o = true → o ≠ none ∧ o ≠ some "" := by
    intro o ho
    cases o with
    | none => simp [pyTruthy] at ho
    | some s =>
      simp only [pyTruthy, decide_eq_true_eq] at ho
      exact ⟨by simp, by simp [ho]⟩
  refine ⟨?_, ?_, ?_, ?_, ?_, ?_, ?_, ?_⟩
  · intro p hp
    rw [teemill_search_eq] at hp
    have := (List.mem_filter.mp hp).2
    simp only [teemillKeep, Bool.and_eq_true] at this
    exact truthy_ne _ this.1
  · rw [teemill_search_eq]
    exact List.filter_congr (fun p _ => by simp [teemillKeep, pyIn_empty])
  · intro p hp
    rw [printful_search_eq] at hp
    have := (List.mem_filter.mp hp).2
    simp only [printfulKeep, Bool.and_eq_true] at this
    exact truthy_ne _ this.1
  · rw [printful_search_eq]
    exact List.filter_congr (fun p _ => by simp [printfulKeep, pyIn_empty])
  · intro p hp
    rw [printify_search_eq] at hp
    have := (List.mem_filter.mp hp).2
    simp only [printifyKeep, Bool.and_eq_true] at this
    exact truthy_ne _ this.1
  · rw [printify_search_eq]
    exact List.filter_congr (fun p _ => by simp [printifyKeep, pyIn_empty])
  · intro p hp
    rw [prodigi_search_eq] at hp
    have := (List.mem_filter.mp hp).2
    simp only [prodigiKeep, Bool.and_eq_true] at this
    exact truthy_ne _ this.1
  · rw [prodigi_search_eq]
    exact List.filter_congr (fun p _ => by simp [prodigiKeep, pyIn_empty])

/-- Claim C10 witness: the empty-owner-id search applied to a concrete
mixed store keeps exactly the item with a non-empty reference. -/
theorem c10_search_requires_truthy_reference_witness :
    teemill_search_products_by_user [blankRefOrder, demoOrder123] ""
      = List.filter (fun p => pyTruthy p.reference) [blankRefOrder, demoOrder123] :=
  (c10_search_requires_truthy_reference [blankRefOrder, demoOrder123] [] [] [] "").2.1

end TShirtBot
